import Mathlib

/-!
Shallow embedding of the declaration-sync / ticket-lifecycle subsystem of the
DKM customs dashboard (source: `src/server/config/db.js`, which contains the
db-connection helper, the declarations controller and the sync controller).

Conventions of the embedding:
* MySQL rows of the `fr_section_declarations` table are the structure `Decl`;
  the table itself is a `List Decl` threaded through each handler.
* Nullable SQL columns and possibly-absent JS values are `Option _`.
* JavaScript falsiness is modelled explicitly: for strings `""` is falsy, for
  numbers `0` is falsy, `null`/`undefined` is `none`.
* Express handlers become pure functions from (current table, request data,
  clock value, external-collaborator result) to (new table, HTTP response,
  trace of observable effects).  The mock-mode branches guarded by
  `USE_MOCK_DB` are outside the modelled behaviour.
-/

namespace DKMDashboard

/-- JS `a || dflt` for an optional string (`undefined`, `null` and `""` are falsy). -/
def jsOrStr : Option String → String → String
  | none, dflt => dflt
  | some s, dflt => if s = "" then dflt else s

/-- JS `a || null` for an optional string: keeps only truthy (non-empty) strings. -/
def jsStrOrNull : Option String → Option String
  | none => none
  | some s => if s = "" then none else some s

/-- JS `(a || "").trim() || null` as used for the cross-reference fields. -/
def trimOrNull (o : Option String) : Option String :=
  let t := (jsOrStr o "").trim
  if t = "" then none else some t

/-- JS `a ? a : null` for an optional number (`0` is falsy). -/
def jsNumOrNull : Option Int → Option Int
  | none => none
  | some t => if t = 0 then none else some t

/-- JS truthiness of a nullable numeric column (`null` and `0` are falsy),
used by the `if (declaration.odoo_project_id)` guard. -/
def jsTruthyId : Option Nat → Bool
  | none => false
  | some v => v != 0

/-! ### GUID extraction (`extractGuid` in the sync controller)

```js
const extractGuid = (linkString) => {
  if (!linkString) return "UNKNOWN";
  const match = linkString.match(/([A-F0-9]{32})/i);
  return match ? match[1] : "UNKNOWN";
};
```
-/

/-- A character matched by the class `[A-F0-9]` under the `/i` flag. -/
def isHexDigitChar (c : Char) : Bool :=
  (decide ('0' ≤ c) && decide (c ≤ '9'))
    || (decide ('A' ≤ c) && decide (c ≤ 'F'))
    || (decide ('a' ≤ c) && decide (c ≤ 'f'))

/-- Does a match of `/[A-F0-9]{32}/i` start at the head of `l`? -/
def hexRun32Here (l : List Char) : Bool :=
  decide (32 ≤ l.length) && (l.take 32).all isHexDigitChar

/-- Leftmost match of `/([A-F0-9]{32})/i`: the JS regex engine tries each start
position from the left and takes the first position where 32 consecutive
`[A-F0-9]` characters follow. -/
def firstHexRun32 : List Char → Option (List Char)
  | [] => none
  | c :: rest =>
    if hexRun32Here (c :: rest) then some ((c :: rest).take 32)
    else firstHexRun32 rest

/-- Is there any 32-character hexadecimal run in the list? -/
def hasHexRun32L : List Char → Bool
  | [] => false
  | c :: rest => hexRun32Here (c :: rest) || hasHexRun32L rest

/-- `extractGuid` from the sync controller.  The argument is the raw
`ODOO_LINKSTRING_STREAMSOFTWARE` field, possibly absent. -/
def extractGuid (linkString : Option String) : String :=
  match linkString with
  | none => "UNKNOWN"
  | some s =>
    if s = "" then "UNKNOWN"
    else
      match firstHexRun32 s.data with
      | some run => String.mk run
      | none => "UNKNOWN"

/-! ### The `fr_section_declarations` table -/

/-- One row of `fr_section_declarations`.  Column names follow the source.
`declaration_id` is the unique business key (`NOT NULL` in the schema, so it
is not optional here); all other nullable columns are `Option`. -/
structure Decl where
  declaration_id : Nat
  declaration_guid : String
  mail_subject : String
  odoo_linkstring : String
  odoo_body : String
  commercial_reference : Option String
  principal : Option String
  importer_code : Option String
  mrn : Option String
  traces_identification : Option String
  linkiderp2 : Option String
  linkiderp4 : Option String
  date_of_acceptance : Option Int
  first_seen_at : Int
  last_seen_at : Int
  odoo_status : String
  odoo_project_id : Option Nat
  odoo_error : Option String
  odoo_updated_at : Option Int
deriving Repr, DecidableEq

/-- `SELECT * FROM fr_section_declarations WHERE declaration_id = ?` followed by
`rows[0]`: the first row with the given key. -/
def findByKey (store : List Decl) (x : Nat) : Option Decl :=
  store.find? (fun d => d.declaration_id == x)

/-- Number of rows with the given key (`count(declarationId = x)`). -/
def countKey (store : List Decl) (x : Nat) : Nat :=
  (store.filter (fun d => d.declaration_id == x)).length

/-- `store.any` on the key, i.e. whether the key is present. -/
def presentKey (store : List Decl) (x : Nat) : Bool :=
  store.any (fun d => d.declaration_id == x)

/-- `UPDATE fr_section_declarations SET ... WHERE declaration_id = ?`:
applies `f` to every row with the given key. -/
def updateRow (store : List Decl) (x : Nat) (f : Decl → Decl) : List Decl :=
  store.map (fun d => if d.declaration_id == x then f d else d)

/-! ### `createProject` (POST /api/declarations/:id/create-project) -/

/-- HTTP responses of `createProject`:
404 not found, 400 already exists, 200 success, 502 Odoo failure. -/
inductive CPResp where
  | notFound
  | alreadyExists (pid : Option Nat)
  | ok (ticketId : Nat)
  | badGateway (details : String)
deriving Repr, DecidableEq

/-- Observable effects of one `createProject` run, in program order:
`writeStatus s` is a committed `UPDATE ... SET odoo_status = s` statement,
`odooCall` is the `await createOdooTicket(declaration)` of the external
ticketing collaborator. -/
inductive DbEvent where
  | writeStatus (s : String)
  | odooCall
deriving Repr, DecidableEq

/-- The persisted status values in an effect trace. -/
def statusWrites (evs : List DbEvent) : List String :=
  evs.filterMap (fun e => match e with
    | .writeStatus s => some s
    | .odooCall => none)

/-- Step 3 of `createProject`: `SET odoo_status = 'PENDING', odoo_updated_at = NOW()`. -/
def setPending (now : Int) (d : Decl) : Decl :=
  { d with odoo_status := "PENDING", odoo_updated_at := some now }

/-- Failure branch of `createProject`:
`SET odoo_status = 'FAILED', odoo_error = ?, odoo_updated_at = NOW()` with the
bound value `odooErr.message || "Unknown Odoo Error"`. -/
def setFailed (msg : String) (now : Int) (d : Decl) : Decl :=
  { d with odoo_status := "FAILED",
           odoo_error := some (if msg = "" then "Unknown Odoo Error" else msg),
           odoo_updated_at := some now }

/-- Step 5 of `createProject`:
`SET odoo_status = 'CREATED', odoo_project_id = ?, odoo_error = NULL, odoo_updated_at = NOW()`. -/
def setCreated (tid : Nat) (now : Int) (d : Decl) : Decl :=
  { d with odoo_status := "CREATED", odoo_project_id := some tid,
           odoo_error := none, odoo_updated_at := some now }

/-- Result of one `createProject` run: the table afterwards, the HTTP
response, and the trace of observable effects. -/
structure CPOut where
  store : List Decl
  resp : CPResp
  events : List DbEvent
deriving Repr, DecidableEq

/-- `createProject` from the declarations controller (non-mock path).
`odoo` is the outcome of the external `createOdooTicket` call: `.ok ticketId`
on success, `.error message` when the collaborator throws. -/
def createProject (store : List Decl) (id : Nat) (now : Int)
    (odoo : Except String Nat) : CPOut :=
  match findByKey store id with
  | none => ⟨store, .notFound, []⟩
  | some d =>
    if jsTruthyId d.odoo_project_id then
      ⟨store, .alreadyExists d.odoo_project_id, []⟩
    else
      let pending := updateRow store id (setPending now)
      match odoo with
      | .error msg =>
        ⟨updateRow pending id (setFailed msg now), .badGateway msg,
         [.writeStatus "PENDING", .odooCall, .writeStatus "FAILED"]⟩
      | .ok tid =>
        ⟨updateRow pending id (setCreated tid now), .ok tid,
         [.writeStatus "PENDING", .odooCall, .writeStatus "CREATED"]⟩

/-! ### `syncDeclarations` (POST /api/sync/upsert) -/

/-- One element of the `items` array of the sync payload.  Every field may be
absent; names follow the source. -/
structure SyncItem where
  DECLARATIONID : Option Nat
  MAIL_SUBJECT : Option String
  ODOO_LINKSTRING_STREAMSOFTWARE : Option String
  ODOO_BODY : Option String
  COMMERCIALREFERENCE : Option String
  PRINCIPAL : Option String
  IMPORTERCODE : Option String
  MRN : Option String
  TRACESIDENTIFICATION : Option String
  LINKIDERP2 : Option String
  LINKIDERP4 : Option String
  DATEOFACCEPTANCE : Option Int
deriving Repr, DecidableEq

/-- `SYNC_SECRET = process.env.SYNC_SECRET || "change_me_in_env"`. -/
def SYNC_SECRET (envSecret : Option String) : String :=
  jsOrStr envSecret "change_me_in_env"

/-- The row built for one item by the `values` mapping of `syncDeclarations`.
`odoo_status`, `odoo_project_id`, `odoo_error`, `odoo_updated_at` are not in
the INSERT column list; they take the schema defaults (modelled from the
spec, which fixes `NEW` as the initial ticket status and the ticket fields as
NULL — the `CREATE TABLE` statement is not part of the sources).
Only called for items whose `DECLARATIONID` is present. -/
def mkValues (now : Int) (item : SyncItem) : Decl where
  declaration_id := item.DECLARATIONID.getD 0
  declaration_guid := extractGuid item.ODOO_LINKSTRING_STREAMSOFTWARE
  mail_subject := jsOrStr item.MAIL_SUBJECT ""
  odoo_linkstring := jsOrStr item.ODOO_LINKSTRING_STREAMSOFTWARE ""
  odoo_body := jsOrStr item.ODOO_BODY ""
  commercial_reference := jsStrOrNull item.COMMERCIALREFERENCE
  principal := jsStrOrNull item.PRINCIPAL
  importer_code := jsStrOrNull item.IMPORTERCODE
  mrn := jsStrOrNull item.MRN
  traces_identification := trimOrNull item.TRACESIDENTIFICATION
  linkiderp2 := trimOrNull item.LINKIDERP2
  linkiderp4 := trimOrNull item.LINKIDERP4
  date_of_acceptance := jsNumOrNull item.DATEOFACCEPTANCE
  first_seen_at := now
  last_seen_at := now
  odoo_status := "NEW"
  odoo_project_id := none
  odoo_error := none
  odoo_updated_at := none

/-- `INSERT ... ON DUPLICATE KEY UPDATE last_seen_at = NOW()` for a single
row: if the unique key `declaration_id` already exists the conflicting row
gets only its `last_seen_at` refreshed, otherwise the row is appended. -/
def touchLastSeen (t : Int) (d : Decl) : Decl :=
  { d with last_seen_at := t }

def upsertOne (store : List Decl) (r : Decl) : List Decl :=
  if presentKey store r.declaration_id then
    updateRow store r.declaration_id (touchLastSeen r.last_seen_at)
  else
    store ++ [r]

/-- The multi-row `INSERT ... VALUES ? ON DUPLICATE KEY UPDATE`: rows are
processed left to right; the second component is MySQL `affectedRows`
(1 per inserted row, 2 per duplicate-key update). -/
def upsertBatch : List Decl → List Decl → List Decl × Nat
  | store, [] => (store, 0)
  | store, r :: rs =>
    let dup := presentKey store r.declaration_id
    let rest := upsertBatch (upsertOne store r) rs
    (rest.1, (if dup then 2 else 1) + rest.2)

/-- HTTP responses of `syncDeclarations`: 401, 400, 200 with stats, 500. -/
inductive SyncResp where
  | unauthorized
  | invalidPayload
  | ok (received upserted : Nat)
  | storageError
deriving Repr, DecidableEq

/-- Result of one `syncDeclarations` run.  `dbTouched` records whether the
handler reached the database at all (connection, `beginTransaction` and the
INSERT are all issued once auth and payload validation have passed). -/
structure SyncOut where
  store : List Decl
  resp : SyncResp
  dbTouched : Bool
deriving Repr, DecidableEq

/-- `syncDeclarations` from the sync controller.  The only store-side failure
modelled is the one the schema forces: a batch row whose `declaration_id`
binds SQL NULL violates the NOT NULL unique key, the INSERT errors, and the
catch block rolls the transaction back and answers 500 (constraint modelled
from the spec: `declarationId` is the required unique key; the `CREATE TABLE`
is not part of the sources). -/
def syncDeclarations (store : List Decl) (envSecret : Option String)
    (header : Option String) (body : Option (List SyncItem)) (now : Int) :
    SyncOut :=
  if header ≠ some (SYNC_SECRET envSecret) then
    ⟨store, .unauthorized, false⟩
  else
    match body with
    | none => ⟨store, .invalidPayload, false⟩
    | some items =>
      if items.isEmpty then ⟨store, .invalidPayload, false⟩
      else if items.any (fun it => it.DECLARATIONID.isNone) then
        ⟨store, .storageError, true⟩
      else
        let out := upsertBatch store (items.map (mkValues now))
        ⟨out.1, .ok items.length out.2, true⟩

/-! ### `getDeclarations` (GET /api/declarations) -/

/-- Parsed query string of `getDeclarations`.  `page`/`pageSize` are the
`parseInt` results with `0` standing for an absent or unparsable parameter
(JS `parseInt(x) || dflt`); the filters are absent-or-empty when `none`. -/
structure DeclQuery where
  page : Nat
  pageSize : Nat
  dateFrom : Option Int
  dateTo : Option Int
  status : Option String
  principal : Option String
  importer : Option String
deriving Repr, DecidableEq

/-- Substring test on character lists. -/
def listContainsSub (p : List Char) : List Char → Bool
  | [] => p.isEmpty
  | c :: t => p.isPrefixOf (c :: t) || listContainsSub p t

/-- `col LIKE '%p%'` for a plain (wildcard-free) pattern: substring test. -/
def containsSub (s p : String) : Bool :=
  listContainsSub p.data s.data

/-- The `AND principal LIKE ?` / `AND importer_code LIKE ?` clauses: absent or
empty query parameters are falsy and add no clause; `NULL LIKE ...` is not
TRUE, so NULL columns are filtered out. -/
def likeFilter (qv : Option String) (col : Option String) : Bool :=
  match qv with
  | none => true
  | some p =>
    if p = "" then true
    else
      match col with
      | none => false
      | some c => containsSub c p

/-- The `AND odoo_status = ?` clause. -/
def eqFilter (qv : Option String) (col : String) : Bool :=
  match qv with
  | none => true
  | some s => if s = "" then true else col == s

/-- The `AND date_of_acceptance >= ?` clause (`NULL >= x` is not TRUE). -/
def geFilter (qv : Option Int) (col : Option Int) : Bool :=
  match qv with
  | none => true
  | some f =>
    match col with
    | none => false
    | some a => decide (f ≤ a)

/-- The `AND date_of_acceptance <= ?` clause. -/
def leFilter (qv : Option Int) (col : Option Int) : Bool :=
  match qv with
  | none => true
  | some t =>
    match col with
    | none => false
    | some a => decide (a ≤ t)

/-- The WHERE clause of `getDeclarations`: conjunction of the independently
optional filters. -/
def matchesQ (q : DeclQuery) (d : Decl) : Bool :=
  geFilter q.dateFrom d.date_of_acceptance
    && leFilter q.dateTo d.date_of_acceptance
    && eqFilter q.status d.odoo_status
    && likeFilter q.principal d.principal
    && likeFilter q.importer d.importer_code

/-- Sort key for `ORDER BY date_of_acceptance DESC`: MySQL treats NULL as
smaller than every date, so NULL rows come last in descending order. -/
def dkey (d : Decl) : Int × Int :=
  match d.date_of_acceptance with
  | none => (0, 0)
  | some t => (1, t)

/-- Lexicographic order on sort keys. -/
def keyLe (x y : Int × Int) : Prop :=
  x.1 < y.1 ∨ (x.1 = y.1 ∧ x.2 ≤ y.2)

/-- Row `a` may precede row `b` under `ORDER BY date_of_acceptance DESC`. -/
def descR (a b : Decl) : Prop :=
  keyLe (dkey b) (dkey a)

instance : DecidableRel descR := fun a b => by
  unfold descR keyLe; infer_instance

instance : IsTotal Decl descR :=
  ⟨by
    intro a b
    unfold descR keyLe
    rcases lt_trichotomy (dkey b).1 (dkey a).1 with h | h | h
    · exact Or.inl (Or.inl h)
    · rcases le_total (dkey b).2 (dkey a).2 with h2 | h2
      · exact Or.inl (Or.inr ⟨h, h2⟩)
      · exact Or.inr (Or.inr ⟨h.symm, h2⟩)
    · exact Or.inr (Or.inl h)⟩

instance : IsTrans Decl descR :=
  ⟨by
    intro a b c hab hbc
    unfold descR keyLe at *
    rcases hab with h | ⟨h1, h2⟩ <;> rcases hbc with g | ⟨g1, g2⟩
    · exact Or.inl (lt_trans g h)
    · exact Or.inl (g1 ▸ h)
    · exact Or.inl (h1 ▸ g)
    · exact Or.inr ⟨g1.trans h1, le_trans g2 h2⟩⟩

/-- Result of `getDeclarations`: the page of rows plus the pagination block. -/
structure PageResult where
  data : List Decl
  page : Nat
  pageSize : Nat
  total : Nat
  totalPages : Nat
deriving Repr, DecidableEq

/-- `getDeclarations` from the declarations controller (non-mock path):
defaults `page` to 1 and `pageSize` to 50, counts the filtered rows, orders
by acceptance date descending and returns the `LIMIT pageSize OFFSET
(page-1)*pageSize` window.  `Math.ceil(total / pageSize)` is
`(total + pageSize - 1) / pageSize` on naturals. -/
def getDeclarations (store : List Decl) (q : DeclQuery) : PageResult :=
  let page := if q.page = 0 then 1 else q.page
  let pageSize := if q.pageSize = 0 then 50 else q.pageSize
  let offset := (page - 1) * pageSize
  let filtered := store.filter (matchesQ q)
  let total := filtered.length
  let sorted := List.insertionSort descR filtered
  { data := (sorted.drop offset).take pageSize
    page := page
    pageSize := pageSize
    total := total
    totalPages := (total + pageSize - 1) / pageSize }

/-! ### Derived definitions and concrete fixtures -/

/-- The store after one sync call with a single-item batch (used to talk
about repeated re-ingestion of the same declaration). -/
def syncStep (envSecret header : Option String) (item : SyncItem) (now : Int)
    (store : List Decl) : List Decl :=
  (syncDeclarations store envSecret header (some [item]) now).store

/-- A plain stored declaration row with key `n`, used for concrete fixtures. -/
def baseRow (n : Nat) : Decl where
  declaration_id := n
  declaration_guid := "UNKNOWN"
  mail_subject := ""
  odoo_linkstring := ""
  odoo_body := ""
  commercial_reference := none
  principal := none
  importer_code := none
  mrn := none
  traces_identification := none
  linkiderp2 := none
  linkiderp4 := none
  date_of_acceptance := some (Int.ofNat n)
  first_seen_at := 0
  last_seen_at := 0
  odoo_status := "NEW"
  odoo_project_id := none
  odoo_error := none
  odoo_updated_at := none

/-- A declaration whose ticket was already created. -/
def rowCreated : Decl :=
  { baseRow 7 with odoo_status := "CREATED", odoo_project_id := some 55,
                   odoo_updated_at := some 2 }

/-- A declaration whose previous ticket attempt failed. -/
def rowFailed : Decl :=
  { baseRow 8 with odoo_status := "FAILED", odoo_error := some "SMTP timeout",
                   odoo_updated_at := some 2 }

/-- 137 rows with pairwise distinct keys and acceptance dates. -/
def storeC7 : List Decl := (List.range 137).map baseRow

/-- Query `page=3&pageSize=50` with no filters. -/
def qC7 : DeclQuery :=
  { page := 3, pageSize := 50, dateFrom := none, dateTo := none,
    status := none, principal := none, importer := none }

/-- A well-formed sync item. -/
def itemFull : SyncItem where
  DECLARATIONID := some 1001
  MAIL_SUBJECT := some "subject"
  ODOO_LINKSTRING_STREAMSOFTWARE := some "XXX/AABBCCDDEEFF00112233445566778899/YYY"
  ODOO_BODY := some "body"
  COMMERCIALREFERENCE := none
  PRINCIPAL := some "IDEAL"
  IMPORTERCODE := none
  MRN := none
  TRACESIDENTIFICATION := none
  LINKIDERP2 := none
  LINKIDERP4 := none
  DATEOFACCEPTANCE := some 11

/-- A sync item with the business identifier missing. -/
def itemNoId : SyncItem where
  DECLARATIONID := none
  MAIL_SUBJECT := none
  ODOO_LINKSTRING_STREAMSOFTWARE := none
  ODOO_BODY := none
  COMMERCIALREFERENCE := none
  PRINCIPAL := none
  IMPORTERCODE := none
  MRN := none
  TRACESIDENTIFICATION := none
  LINKIDERP2 := none
  LINKIDERP4 := none
  DATEOFACCEPTANCE := none

/-- A sync item re-ingesting the key of `baseRow 7`. -/
def itemDup : SyncItem :=
  { itemFull with DECLARATIONID := some 7 }

/-- A well-formed sync item with key `n`. -/
def itemK (n : Nat) : SyncItem :=
  { itemFull with DECLARATIONID := some n }

/-- A batch of ten items whose fifth is malformed (no business identifier). -/
def itemsC8 : List SyncItem :=
  [itemK 1, itemK 2, itemK 3, itemK 4, itemNoId,
   itemK 6, itemK 7, itemK 8, itemK 9, itemK 10]

/-! ### Helper lemmas -/

theorem firstHexRun32_of_not_has (l : List Char) (h : hasHexRun32L l = false) :
    firstHexRun32 l = none := by
  induction l with
  | nil => rfl
  | cons c rest ih =>
    unfold hasHexRun32L at h
    rw [Bool.or_eq_false_iff] at h
    unfold firstHexRun32
    simp [h.1, ih h.2]

theorem firstHexRun32_of_has (l : List Char) (h : hasHexRun32L l = true) :
    ∃ j, hexRun32Here (l.drop j) = true ∧
      firstHexRun32 l = some ((l.drop j).take 32) ∧
      ∀ k < j, hexRun32Here (l.drop k) = false := by
  induction l with
  | nil => simp [hasHexRun32L] at h
  | cons c rest ih =>
    by_cases hc : hexRun32Here (c :: rest) = true
    · refine ⟨0, hc, by simp [firstHexRun32, hc], ?_⟩
      intro k hk
      exact absurd hk (Nat.not_lt_zero k)
    · have h2 : hasHexRun32L rest = true := by
        unfold hasHexRun32L at h
        rcases Bool.or_eq_true_iff.mp h with h | h
        · exact absurd h hc
        · exact h
      obtain ⟨j, hj1, hj2, hj3⟩ := ih h2
      refine ⟨j + 1, by simpa using hj1, ?_, ?_⟩
      · unfold firstHexRun32
        simp [hc, hj2]
      · intro k hk
        match k with
        | 0 => simpa using Bool.eq_false_iff.mpr hc
        | k + 1 => simpa using hj3 k (by omega)

/-- Leftmost-match characterisation of `extractGuid` on an input that does
contain a 32-character hexadecimal run. -/
theorem extractGuid_found (s : String) (h : hasHexRun32L s.data = true) :
    ∃ j, extractGuid (some s) = String.mk ((s.data.drop j).take 32) ∧
      ((s.data.drop j).take 32).all isHexDigitChar = true ∧
      ((s.data.drop j).take 32).length = 32 ∧
      ∀ k < j, hexRun32Here (s.data.drop k) = false := by
  have hs : ¬s = "" := by
    intro he
    subst he
    simp [hasHexRun32L] at h
  obtain ⟨j, hj1, hj2, hj3⟩ := firstHexRun32_of_has s.data h
  have hrun : 32 ≤ (s.data.drop j).length ∧
      ((s.data.drop j).take 32).all isHexDigitChar = true := by
    unfold hexRun32Here at hj1
    simpa using hj1
  refine ⟨j, ?_, hrun.2, ?_, hj3⟩
  · unfold extractGuid
    simp [hs, hj2]
  · rw [List.length_take]
    have h32 := hrun.1
    omega

/-- `extractGuid` falls back to the sentinel when no 32-character
hexadecimal run exists. -/
theorem extractGuid_not_found (s : String) (h : hasHexRun32L s.data = false) :
    extractGuid (some s) = "UNKNOWN" := by
  by_cases hs : s = ""
  · subst hs; rfl
  · unfold extractGuid
    simp [hs, firstHexRun32_of_not_has s.data h]

/-- The per-row update of `updateRow` never changes the key, so its effect on
any single row preserves `declaration_id`. -/
theorem updateRow_keyFix (x : Nat) (f : Decl → Decl)
    (hf : ∀ d, (f d).declaration_id = d.declaration_id) (d : Decl) :
    (if d.declaration_id == x then f d else d).declaration_id = d.declaration_id := by
  by_cases hc : (d.declaration_id == x) = true
  · rw [if_pos hc, hf]
  · rw [if_neg hc]

theorem findByKey_updateRow (store : List Decl) (x : Nat) (f : Decl → Decl)
    (hf : ∀ d, (f d).declaration_id = d.declaration_id) :
    findByKey (updateRow store x f) x = (findByKey store x).map f := by
  induction store with
  | nil => rfl
  | cons a l ih =>
    unfold findByKey updateRow at ih ⊢
    simp only [List.map_cons]
    by_cases hx : (a.declaration_id == x) = true
    · rw [if_pos hx, List.find?_cons, List.find?_cons]
      simp only [hf a, hx]
      rfl
    · rw [if_neg hx, List.find?_cons, List.find?_cons]
      rw [Bool.not_eq_true] at hx
      simp only [hx]
      exact ih

theorem countKey_updateRow (store : List Decl) (x y : Nat) (f : Decl → Decl)
    (hf : ∀ d, (f d).declaration_id = d.declaration_id) :
    countKey (updateRow store x f) y = countKey store y := by
  induction store with
  | nil => rfl
  | cons a l ih =>
    unfold countKey updateRow at ih ⊢
    simp only [List.map_cons, List.filter_cons]
    rw [updateRow_keyFix x f hf a]
    by_cases hy : (a.declaration_id == y) = true
    · rw [if_pos hy, if_pos hy]
      simp only [List.length_cons]
      rw [ih]
    · rw [if_neg hy, if_neg hy]
      exact ih

theorem length_updateRow (store : List Decl) (x : Nat) (f : Decl → Decl) :
    (updateRow store x f).length = store.length := by
  unfold updateRow
  exact List.length_map _ _

theorem presentKey_updateRow (store : List Decl) (x y : Nat) (f : Decl → Decl)
    (hf : ∀ d, (f d).declaration_id = d.declaration_id) :
    presentKey (updateRow store x f) y = presentKey store y := by
  induction store with
  | nil => rfl
  | cons a l ih =>
    unfold presentKey updateRow at ih ⊢
    simp only [List.map_cons, List.any_cons]
    rw [updateRow_keyFix x f hf a, ih]

theorem presentKey_of_findByKey (store : List Decl) (x : Nat) (d : Decl)
    (h : findByKey store x = some d) : presentKey store x = true := by
  unfold findByKey at h
  unfold presentKey
  rw [List.any_eq_true]
  have hp := List.find?_some h
  exact ⟨d, List.mem_of_find?_eq_some h, hp⟩

theorem findByKey_of_presentKey (store : List Decl) (x : Nat)
    (h : presentKey store x = true) : ∃ d, findByKey store x = some d := by
  unfold presentKey at h
  rw [List.any_eq_true] at h
  obtain ⟨d, hmem, hp⟩ := h
  have hsome : (store.find? (fun d => d.declaration_id == x)).isSome = true := by
    rw [List.find?_isSome]
    exact ⟨d, hmem, hp⟩
  exact Option.isSome_iff_exists.mp hsome

theorem length_upsertOne_existing (store : List Decl) (r : Decl)
    (h : presentKey store r.declaration_id = true) :
    (upsertOne store r).length = store.length := by
  unfold upsertOne
  rw [if_pos h]
  exact length_updateRow _ _ _

theorem countKey_upsertOne_existing (store : List Decl) (r : Decl) (y : Nat)
    (h : presentKey store r.declaration_id = true) :
    countKey (upsertOne store r) y = countKey store y := by
  unfold upsertOne
  rw [if_pos h]
  exact countKey_updateRow store r.declaration_id y (touchLastSeen r.last_seen_at)
    (fun d => rfl)

theorem findByKey_upsertOne_existing (store : List Decl) (r : Decl)
    (h : presentKey store r.declaration_id = true) :
    findByKey (upsertOne store r) r.declaration_id =
      (findByKey store r.declaration_id).map (touchLastSeen r.last_seen_at) := by
  unfold upsertOne
  rw [if_pos h]
  exact findByKey_updateRow store r.declaration_id (touchLastSeen r.last_seen_at)
    (fun d => rfl)

theorem presentKey_upsertOne_self (store : List Decl) (r : Decl) :
    presentKey (upsertOne store r) r.declaration_id = true := by
  unfold upsertOne
  by_cases h : presentKey store r.declaration_id = true
  · rw [if_pos h, presentKey_updateRow store r.declaration_id r.declaration_id
        (touchLastSeen r.last_seen_at) (fun d => rfl)]
    exact h
  · rw [if_neg h]
    unfold presentKey
    rw [List.any_eq_true]
    exact ⟨r, by simp, by simp⟩

theorem presentKey_upsertOne_mono (store : List Decl) (r : Decl) (y : Nat)
    (h : presentKey store y = true) :
    presentKey (upsertOne store r) y = true := by
  unfold upsertOne
  by_cases hp : presentKey store r.declaration_id = true
  · rw [if_pos hp, presentKey_updateRow store r.declaration_id y
        (touchLastSeen r.last_seen_at) (fun d => rfl)]
    exact h
  · rw [if_neg hp]
    unfold presentKey at h ⊢
    rw [List.any_eq_true] at h ⊢
    obtain ⟨d, hd, hdp⟩ := h
    exact ⟨d, List.mem_append_left _ hd, hdp⟩

theorem presentKey_upsertBatch_mono (rows : List Decl) (store : List Decl) (y : Nat)
    (h : presentKey store y = true) :
    presentKey (upsertBatch store rows).1 y = true := by
  induction rows generalizing store with
  | nil => exact h
  | cons r rs ih =>
    unfold upsertBatch
    exact ih _ (presentKey_upsertOne_mono store r y h)

theorem presentKey_upsertBatch_of_mem (rows : List Decl) (store : List Decl) (r : Decl)
    (h : r ∈ rows) :
    presentKey (upsertBatch store rows).1 r.declaration_id = true := by
  induction rows generalizing store with
  | nil => cases h
  | cons a rs ih =>
    unfold upsertBatch
    rcases List.mem_cons.mp h with heq | h2
    · subst heq
      exact presentKey_upsertBatch_mono rs _ _ (presentKey_upsertOne_self store r)
    · exact ih _ h2

/-- Under passing authentication and a valid batch whose items all carry a
`DECLARATIONID`, `syncDeclarations` commits the batch upsert. -/
theorem syncDeclarations_run (store : List Decl) (envS : Option String)
    (items : List SyncItem) (now : Int)
    (hne : items ≠ [])
    (hids : items.all (fun it => !it.DECLARATIONID.isNone) = true) :
    syncDeclarations store envS (some (SYNC_SECRET envS)) (some items) now =
      ⟨(upsertBatch store (items.map (mkValues now))).1,
       .ok items.length (upsertBatch store (items.map (mkValues now))).2, true⟩ := by
  have hemp : items.isEmpty = false := by
    cases items with
    | nil => exact absurd rfl hne
    | cons a l => rfl
  have hany : (items.any fun it => it.DECLARATIONID.isNone) = false := by
    rw [Bool.eq_false_iff]
    intro hc
    rw [List.any_eq_true] at hc
    obtain ⟨it, hmem, hit⟩ := hc
    rw [List.all_eq_true] at hids
    have h2 := hids it hmem
    rw [hit] at h2
    exact absurd h2 (by simp)
  simp [syncDeclarations, hemp, hany]

/-- The disabled-auth / mismatched-header branch. -/
theorem syncDeclarations_unauthorized (store : List Decl) (envS header : Option String)
    (body : Option (List SyncItem)) (now : Int)
    (h : header ≠ some (SYNC_SECRET envS)) :
    syncDeclarations store envS header body now = ⟨store, .unauthorized, false⟩ := by
  unfold syncDeclarations
  rw [if_pos h]

theorem presentKey_of_countKey_pos (store : List Decl) (x : Nat)
    (h : 0 < countKey store x) : presentKey store x = true := by
  unfold countKey at h
  rw [List.length_pos] at h
  obtain ⟨d, hd⟩ := List.exists_mem_of_ne_nil _ h
  have := List.mem_filter.mp hd
  unfold presentKey
  rw [List.any_eq_true]
  exact ⟨d, this.1, this.2⟩

/-- Reduction of `createProject` when the fetched declaration carries a truthy
`odoo_project_id`: 400 and no effect. -/
theorem createProject_blocked (store : List Decl) (id : Nat) (now : Int)
    (odoo : Except String Nat) (d : Decl)
    (hfound : findByKey store id = some d)
    (htruthy : jsTruthyId d.odoo_project_id = true) :
    createProject store id now odoo = ⟨store, .alreadyExists d.odoo_project_id, []⟩ := by
  unfold createProject
  rw [hfound]
  simp [htruthy]

/-- Reduction of `createProject` when the guard passes and the collaborator
throws: PENDING write, call, FAILED write, 502. -/
theorem createProject_proceed_error (store : List Decl) (id : Nat) (now : Int)
    (msg : String) (d : Decl)
    (hfound : findByKey store id = some d)
    (hguard : jsTruthyId d.odoo_project_id = false) :
    createProject store id now (.error msg) =
      ⟨updateRow (updateRow store id (setPending now)) id (setFailed msg now),
       .badGateway msg,
       [.writeStatus "PENDING", .odooCall, .writeStatus "FAILED"]⟩ := by
  unfold createProject
  rw [hfound]
  simp [hguard]

/-- Reduction of `createProject` when the guard passes and the collaborator
succeeds: PENDING write, call, CREATED write, 200. -/
theorem createProject_proceed_ok (store : List Decl) (id : Nat) (now : Int)
    (tid : Nat) (d : Decl)
    (hfound : findByKey store id = some d)
    (hguard : jsTruthyId d.odoo_project_id = false) :
    createProject store id now (.ok tid) =
      ⟨updateRow (updateRow store id (setPending now)) id (setCreated tid now),
       .ok tid,
       [.writeStatus "PENDING", .odooCall, .writeStatus "CREATED"]⟩ := by
  unfold createProject
  rw [hfound]
  simp [hguard]

/-- A truthy project id under the documented invariant comes from status
CREATED, and conversely. -/
theorem jsTruthyId_of_inv (d : Decl)
    (hinv : d.odoo_project_id ≠ none ↔ d.odoo_status = "CREATED")
    (hnz : d.odoo_project_id ≠ some 0) :
    jsTruthyId d.odoo_project_id = true ↔ d.odoo_status = "CREATED" := by
  constructor
  · intro ht
    apply hinv.mp
    cases hop : d.odoo_project_id with
    | none => rw [hop] at ht; exact absurd ht (by simp [jsTruthyId])
    | some v => simp
  · intro hc
    have hpid : d.odoo_project_id ≠ none := hinv.mpr hc
    cases hop : d.odoo_project_id with
    | none => exact absurd hop hpid
    | some v =>
      have hv : v ≠ 0 := by
        intro h0
        rw [h0] at hop
        exact hnz hop
      simpa [jsTruthyId] using hv

/-! ### Claim theorems -/

/-- Claim C6: `extractGuid` is a pure function of the link string; on every
input containing a run of 32 consecutive hexadecimal characters it returns
the (leftmost) such 32-character run, and on every input containing no such
run it returns the sentinel "UNKNOWN". -/
theorem extractGuid_hexRun_correct (s : String) :
    (hasHexRun32L s.data = true →
      ∃ j, extractGuid (some s) = String.mk ((s.data.drop j).take 32) ∧
        ((s.data.drop j).take 32).all isHexDigitChar = true ∧
        ((s.data.drop j).take 32).length = 32 ∧
        ∀ k < j, hexRun32Here (s.data.drop k) = false) ∧
    (hasHexRun32L s.data = false → extractGuid (some s) = "UNKNOWN") :=
  ⟨extractGuid_found s, extractGuid_not_found s⟩

/-- Witness for C6 at the spec's example link string and at a run-free
input. -/
theorem extractGuid_hexRun_correct_witness :
    extractGuid (some "...XMLPREFIX/57419AC664EB465EFEAB08DE2D0324B4/SUFFIX...") =
      "57419AC664EB465EFEAB08DE2D0324B4" ∧
    extractGuid (some "no hex run here") = "UNKNOWN" :=
  ⟨rfl, (extractGuid_hexRun_correct "no hex run here").2 (by decide)⟩

/-- Claim C10: `extractGuid` is total and case-insensitive: a null or absent
link string yields "UNKNOWN" rather than an error, and an input whose
32-character hexadecimal run is lower- or mixed-case still yields that run
verbatim (original casing), never "UNKNOWN". -/
theorem extractGuid_total_caseless :
    extractGuid none = "UNKNOWN" ∧
    extractGuid (some "") = "UNKNOWN" ∧
    ∀ s : String, hasHexRun32L s.data = true →
      extractGuid (some s) ≠ "UNKNOWN" ∧
      ∃ j, extractGuid (some s) = String.mk ((s.data.drop j).take 32) := by
  refine ⟨rfl, rfl, ?_⟩
  intro s h
  obtain ⟨j, hj1, _, hj3, _⟩ := extractGuid_found s h
  refine ⟨?_, j, hj1⟩
  intro hu
  rw [hj1] at hu
  have hdata : (s.data.drop j).take 32 = "UNKNOWN".data := congrArg String.data hu
  have hlen := congrArg List.length hdata
  rw [hj3] at hlen
  simp at hlen

/-- Witness for C10: absent input, and a lower-case run returned verbatim. -/
theorem extractGuid_total_caseless_witness :
    extractGuid none = "UNKNOWN" ∧
    extractGuid (some "xx/57419ac664eb465efeab08de2d0324b4/yy") ≠ "UNKNOWN" :=
  ⟨extractGuid_total_caseless.1,
   (extractGuid_total_caseless.2.2 "xx/57419ac664eb465efeab08de2d0324b4/yy"
      (by decide)).1⟩

/-- Claim C1: under the documented invariant (`ticketId` non-null iff status
CREATED, ticket ids nonzero), a create-project request on a CREATED
declaration fails with the 400 already-exists error, does not invoke the
external collaborator and leaves the store untouched; on a FAILED
declaration the request is not rejected and proceeds again through a
persisted PENDING and the external call. -/
theorem createProject_createdBlocks_failedRetries
    (store : List Decl) (id : Nat) (now : Int) (odoo : Except String Nat) (d : Decl)
    (hfound : findByKey store id = some d)
    (hinv : d.odoo_project_id ≠ none ↔ d.odoo_status = "CREATED")
    (hnz : d.odoo_project_id ≠ some 0) :
    (d.odoo_status = "CREATED" →
      (createProject store id now odoo).resp = .alreadyExists d.odoo_project_id ∧
      .odooCall ∉ (createProject store id now odoo).events ∧
      (createProject store id now odoo).store = store) ∧
    (d.odoo_status = "FAILED" →
      (∀ pid, (createProject store id now odoo).resp ≠ .alreadyExists pid) ∧
      (createProject store id now odoo).resp ≠ .notFound ∧
      (createProject store id now odoo).events.head? = some (.writeStatus "PENDING") ∧
      .odooCall ∈ (createProject store id now odoo).events) := by
  constructor
  · intro hc
    have htruthy : jsTruthyId d.odoo_project_id = true :=
      (jsTruthyId_of_inv d hinv hnz).mpr hc
    rw [createProject_blocked store id now odoo d hfound htruthy]
    exact ⟨rfl, by simp, rfl⟩
  · intro hfail
    have hguard : jsTruthyId d.odoo_project_id = false := by
      rw [Bool.eq_false_iff]
      intro ht
      have hc := (jsTruthyId_of_inv d hinv hnz).mp ht
      rw [hfail] at hc
      simp at hc
    cases odoo with
    | error msg =>
      rw [createProject_proceed_error store id now msg d hfound hguard]
      exact ⟨by intro pid; simp, by simp, rfl, by simp⟩
    | ok tid =>
      rw [createProject_proceed_ok store id now tid d hfound hguard]
      exact ⟨by intro pid; simp, by simp, rfl, by simp⟩

/-- Witness for C1: a CREATED row is blocked with its stored ticket id; a
FAILED row proceeds and its first persisted write is PENDING. -/
theorem createProject_createdBlocks_failedRetries_witness :
    (createProject [rowCreated] 7 5 (.ok 99)).resp = .alreadyExists (some 55) ∧
    (createProject [rowFailed] 8 5 (.ok 99)).events.head? =
      some (.writeStatus "PENDING") :=
  ⟨((createProject_createdBlocks_failedRetries [rowCreated] 7 5 (.ok 99) rowCreated
      rfl (by decide) (by decide)).1 rfl).1,
   ((createProject_createdBlocks_failedRetries [rowFailed] 8 5 (.ok 99) rowFailed
      rfl (by decide) (by decide)).2 rfl).2.2.1⟩

/-- Claim C3: in every create-project run, PENDING is persisted before the
external call starts (any trace containing the call begins with the PENDING
write); starting from NEW the observed status sequence is a prefix of
NEW, PENDING, (CREATED | FAILED); a FAILED write only ever follows the
PENDING write; and a CREATED declaration (under the documented invariant)
never re-enters PENDING. -/
theorem createProject_lifecycle
    (store : List Decl) (id : Nat) (now : Int) (odoo : Except String Nat) (d : Decl)
    (hfound : findByKey store id = some d)
    (hinv : d.odoo_project_id ≠ none ↔ d.odoo_status = "CREATED")
    (hnz : d.odoo_project_id ≠ some 0) :
    (.odooCall ∈ (createProject store id now odoo).events →
      (createProject store id now odoo).events =
        [.writeStatus "PENDING", .odooCall, .writeStatus "CREATED"] ∨
      (createProject store id now odoo).events =
        [.writeStatus "PENDING", .odooCall, .writeStatus "FAILED"]) ∧
    (d.odoo_status = "NEW" →
      ∃ last, (last = "CREATED" ∨ last = "FAILED") ∧
        (d.odoo_status :: statusWrites (createProject store id now odoo).events)
          <+: ["NEW", "PENDING", last]) ∧
    (statusWrites (createProject store id now odoo).events = [] ∨
     statusWrites (createProject store id now odoo).events = ["PENDING", "CREATED"] ∨
     statusWrites (createProject store id now odoo).events = ["PENDING", "FAILED"]) ∧
    (d.odoo_status = "CREATED" →
      statusWrites (createProject store id now odoo).events = []) := by
  by_cases ht : jsTruthyId d.odoo_project_id = true
  · rw [createProject_blocked store id now odoo d hfound ht]
    have hc : d.odoo_status = "CREATED" := (jsTruthyId_of_inv d hinv hnz).mp ht
    refine ⟨by simp, ?_, Or.inl rfl, fun _ => rfl⟩
    intro hnew
    rw [hnew] at hc
    simp at hc
  · have hguard : jsTruthyId d.odoo_project_id = false := Bool.eq_false_iff.mpr ht
    have hnc : ¬ d.odoo_status = "CREATED" := by
      intro hc
      exact ht ((jsTruthyId_of_inv d hinv hnz).mpr hc)
    cases odoo with
    | error msg =>
      rw [createProject_proceed_error store id now msg d hfound hguard]
      refine ⟨fun _ => Or.inr rfl, ?_, Or.inr (Or.inr rfl), fun hc => absurd hc hnc⟩
      intro hnew
      exact ⟨"FAILED", Or.inr rfl, by rw [hnew]; exact List.prefix_refl _⟩
    | ok tid =>
      rw [createProject_proceed_ok store id now tid d hfound hguard]
      refine ⟨fun _ => Or.inl rfl, ?_, Or.inr (Or.inl rfl), fun hc => absurd hc hnc⟩
      intro hnew
      exact ⟨"CREATED", Or.inl rfl, by rw [hnew]; exact List.prefix_refl _⟩

/-- Witness for C3: a NEW declaration with a succeeding collaborator yields
the full trace with PENDING persisted before the call, and the observed
status sequence NEW, PENDING, CREATED. -/
theorem createProject_lifecycle_witness :
    (createProject [baseRow 3] 3 5 (.ok 99)).events =
      [.writeStatus "PENDING", .odooCall, .writeStatus "CREATED"] ∧
    ("NEW" :: statusWrites (createProject [baseRow 3] 3 5 (.ok 99)).events)
      <+: ["NEW", "PENDING", "CREATED"] := by
  have h := createProject_lifecycle [baseRow 3] 3 5 (.ok 99) (baseRow 3)
    rfl (by decide) (by decide)
  refine ⟨?_, ?_⟩
  · exact (h.1 (by decide)).resolve_right (by decide)
  · obtain ⟨last, hl, hp⟩ := h.2.1 rfl
    have hlast : last = "CREATED" := by
      rcases hl with hl | hl
      · exact hl
      · rw [hl] at hp
        exact absurd (List.IsPrefix.eq_of_length hp (by decide)) (by decide)
    rw [hlast] at hp
    exact hp

/-- Claim C4: when the collaborator fails, the declaration is durably marked
FAILED with the collaborator's message and a fresh timestamp, the caller
gets the 502 carrying the details (never a success response); a subsequent
successful attempt marks it CREATED, stores the ticket id and clears the
error to null. -/
theorem createProject_failureThenRetry
    (store : List Decl) (id : Nat) (now now2 : Int) (msg : String) (tid : Nat) (d : Decl)
    (hfound : findByKey store id = some d)
    (hguard : jsTruthyId d.odoo_project_id = false)
    (hmsg : msg ≠ "") :
    (createProject store id now (.error msg)).resp = .badGateway msg ∧
    (∀ t, (createProject store id now (.error msg)).resp ≠ .ok t) ∧
    findByKey (createProject store id now (.error msg)).store id =
      some { d with odoo_status := "FAILED", odoo_error := some msg,
                    odoo_updated_at := some now } ∧
    (createProject (createProject store id now (.error msg)).store id now2
        (.ok tid)).resp = .ok tid ∧
    findByKey (createProject (createProject store id now (.error msg)).store id now2
        (.ok tid)).store id =
      some { d with odoo_status := "CREATED", odoo_project_id := some tid,
                    odoo_error := none, odoo_updated_at := some now2 } := by
  rw [createProject_proceed_error store id now msg d hfound hguard]
  have hfind1 :
      findByKey (updateRow (updateRow store id (setPending now)) id (setFailed msg now)) id =
        some { d with odoo_status := "FAILED", odoo_error := some msg,
                      odoo_updated_at := some now } := by
    rw [findByKey_updateRow (updateRow store id (setPending now)) id
          (setFailed msg now) (fun d => rfl),
        findByKey_updateRow store id (setPending now) (fun d => rfl), hfound]
    simp only [Option.map_some']
    unfold setPending setFailed
    rw [if_neg hmsg]
  refine ⟨rfl, by intro t; simp, hfind1, ?_, ?_⟩
  · rw [createProject_proceed_ok _ id now2 tid _ hfind1 (by exact hguard)]
  · rw [createProject_proceed_ok _ id now2 tid _ hfind1 (by exact hguard)]
    simp only []
    rw [findByKey_updateRow _ id (setCreated tid now2) (fun d => rfl),
        findByKey_updateRow _ id (setPending now2) (fun d => rfl), hfind1]
    simp only [Option.map_some']
    unfold setPending setCreated
    rfl

/-- Witness for C4 at a concrete NEW row, failing message "SMTP timeout",
then ticket id 55. -/
theorem createProject_failureThenRetry_witness :
    (createProject [baseRow 3] 3 5 (.error "SMTP timeout")).resp =
      .badGateway "SMTP timeout" ∧
    findByKey (createProject [baseRow 3] 3 5 (.error "SMTP timeout")).store 3 =
      some { baseRow 3 with odoo_status := "FAILED",
                            odoo_error := some "SMTP timeout",
                            odoo_updated_at := some 5 } ∧
    findByKey (createProject (createProject [baseRow 3] 3 5
        (.error "SMTP timeout")).store 3 6 (.ok 55)).store 3 =
      some { baseRow 3 with odoo_status := "CREATED",
                            odoo_project_id := some 55,
                            odoo_error := none,
                            odoo_updated_at := some 6 } := by
  have h := createProject_failureThenRetry [baseRow 3] 3 5 6 "SMTP timeout" 55 (baseRow 3)
    rfl rfl (by decide)
  exact ⟨h.1, h.2.2.1, h.2.2.2.2⟩

/-- Reduction of `syncDeclarations` when some item lacks its business
identifier: the batch INSERT hits the NOT NULL key constraint, the
transaction is rolled back and the handler answers 500. -/
theorem syncDeclarations_invalidId_run (store : List Decl) (envS : Option String)
    (items : List SyncItem) (now : Int)
    (hne : items ≠ [])
    (hany : (items.any fun it => it.DECLARATIONID.isNone) = true) :
    syncDeclarations store envS (some (SYNC_SECRET envS)) (some items) now =
      ⟨store, .storageError, true⟩ := by
  have hemp : items.isEmpty = false := by
    cases items with
    | nil => exact absurd rfl hne
    | cons a l => rfl
  simp [syncDeclarations, hemp, hany]

/-- Once authentication has passed, no branch of `syncDeclarations` answers
401. -/
theorem syncDeclarations_auth_not_unauthorized (store : List Decl)
    (envS : Option String) (body : Option (List SyncItem)) (now : Int) :
    (syncDeclarations store envS (some (SYNC_SECRET envS)) body now).resp ≠
      .unauthorized := by
  unfold syncDeclarations
  rw [if_neg (by simp)]
  cases body with
  | none => simp
  | some items =>
    by_cases h1 : items.isEmpty = true
    · simp [h1]
    · by_cases h2 : (items.any fun it => it.DECLARATIONID.isNone) = true
      · simp [h1, h2]
      · simp [h1, h2]

/-- One single-item re-sync of an existing key keeps the row count at 1. -/
theorem countKey_syncStep (envS : Option String) (item : SyncItem) (x : Nat)
    (now : Int) (hid : item.DECLARATIONID = some x) (st : List Decl)
    (hc : countKey st x = 1) :
    countKey (syncStep envS (some (SYNC_SECRET envS)) item now st) x = 1 := by
  have hpres : presentKey st x = true :=
    presentKey_of_countKey_pos st x (by omega)
  have hkey : (mkValues now item).declaration_id = x := by
    simp [mkValues, hid]
  unfold syncStep
  rw [syncDeclarations_run st envS [item] now (by simp) (by simp [hid])]
  have hub : (upsertBatch st (List.map (mkValues now) [item])).1 =
      upsertOne st (mkValues now item) := rfl
  simp only [hub]
  rw [countKey_upsertOne_existing st (mkValues now item) x (by rw [hkey]; exact hpres)]
  exact hc

/-- Claim C2: re-ingesting an existing `declarationId` updates only
`lastSeenAt`; `firstSeenAt`, all descriptive fields and all
ticket-integration fields are untouched (the stored row is exactly the old
row with `last_seen_at` refreshed), no duplicate row appears, and the row
count for that key stays 1 after any number of re-ingestions. -/
theorem syncDeclarations_resync_lastSeenOnly
    (store : List Decl) (envS : Option String) (item : SyncItem) (x : Nat)
    (d : Decl) (now : Int)
    (hid : item.DECLARATIONID = some x)
    (hfound : findByKey store x = some d)
    (hcount : countKey store x = 1) :
    findByKey (syncDeclarations store envS (some (SYNC_SECRET envS))
        (some [item]) now).store x = some { d with last_seen_at := now } ∧
    countKey (syncDeclarations store envS (some (SYNC_SECRET envS))
        (some [item]) now).store x = 1 ∧
    (syncDeclarations store envS (some (SYNC_SECRET envS))
        (some [item]) now).store.length = store.length ∧
    ∀ n : Nat,
      countKey ((syncStep envS (some (SYNC_SECRET envS)) item now)^[n] store) x = 1 := by
  have hpres : presentKey store x = true := presentKey_of_findByKey store x d hfound
  have hkey : (mkValues now item).declaration_id = x := by
    simp [mkValues, hid]
  have hpres2 : presentKey store (mkValues now item).declaration_id = true := by
    rw [hkey]; exact hpres
  rw [syncDeclarations_run store envS [item] now (by simp) (by simp [hid])]
  have hub : (upsertBatch store (List.map (mkValues now) [item])).1 =
      upsertOne store (mkValues now item) := rfl
  simp only [hub]
  refine ⟨?_, ?_, ?_, ?_⟩
  · have hf := findByKey_upsertOne_existing store (mkValues now item) hpres2
    rw [hkey] at hf
    rw [hf, hfound]
    rfl
  · rw [countKey_upsertOne_existing store (mkValues now item) x hpres2]
    exact hcount
  · exact length_upsertOne_existing store (mkValues now item) hpres2
  · intro n
    induction n with
    | zero => exact hcount
    | succ n ih =>
      rw [Function.iterate_succ_apply']
      exact countKey_syncStep envS item x now hid _ ih

/-- Witness for C2: re-ingesting key 7 refreshes only `last_seen_at` and
keeps a single row. -/
theorem syncDeclarations_resync_lastSeenOnly_witness :
    findByKey (syncDeclarations [baseRow 7] none (some "change_me_in_env")
        (some [itemDup]) 5).store 7 = some { baseRow 7 with last_seen_at := 5 } ∧
    countKey (syncDeclarations [baseRow 7] none (some "change_me_in_env")
        (some [itemDup]) 5).store 7 = 1 :=
  ⟨(syncDeclarations_resync_lastSeenOnly [baseRow 7] none itemDup 7 (baseRow 7) 5
      rfl rfl rfl).1,
   (syncDeclarations_resync_lastSeenOnly [baseRow 7] none itemDup 7 (baseRow 7) 5
      rfl rfl rfl).2.1⟩

/-- Counterexample to C5 as stated: a batch containing a record with no
`declarationId` is not rejected before the database is involved — the
handler passes its only pre-database validation (authentication plus the
non-empty-array check), opens the transaction and runs the INSERT
(`dbTouched = true`), and the failure surfaces as the 500 storage error of
the catch block, not as a 400 validation rejection. -/
theorem syncDeclarations_missingId_notPrevalidated :
    (syncDeclarations [] none (some "change_me_in_env")
        (some [itemNoId]) 0).dbTouched = true ∧
    (syncDeclarations [] none (some "change_me_in_env")
        (some [itemNoId]) 0).resp = .storageError ∧
    (syncDeclarations [] none (some "change_me_in_env")
        (some [itemNoId]) 0).resp ≠ .invalidPayload := by
  exact ⟨rfl, rfl, by decide⟩

/-- Claim C5 amended: a record missing its `declarationId` is not rejected
before the database operation; the only pre-database validation is that the
payload is a non-empty array.  The malformed record is passed into the batch
INSERT, the store rejects it (NOT NULL key), and the whole batch rolls back
with a 500 storage error, leaving the table unchanged. -/
theorem syncDeclarations_missingId_storageError
    (store : List Decl) (envS : Option String) (items : List SyncItem) (now : Int)
    (hsome : ∃ it ∈ items, it.DECLARATIONID = none) :
    (syncDeclarations store envS (some (SYNC_SECRET envS))
        (some items) now).dbTouched = true ∧
    (syncDeclarations store envS (some (SYNC_SECRET envS))
        (some items) now).resp = .storageError ∧
    (syncDeclarations store envS (some (SYNC_SECRET envS))
        (some items) now).store = store := by
  obtain ⟨it, hmem, hit⟩ := hsome
  have hne : items ≠ [] := by
    intro he
    rw [he] at hmem
    cases hmem
  have hany : (items.any fun it => it.DECLARATIONID.isNone) = true := by
    rw [List.any_eq_true]
    exact ⟨it, hmem, by rw [hit]; rfl⟩
  rw [syncDeclarations_invalidId_run store envS items now hne hany]
  exact ⟨rfl, rfl, rfl⟩

/-- Witness for the amended C5 at a concrete one-item batch. -/
theorem syncDeclarations_missingId_storageError_witness :
    (syncDeclarations [baseRow 3] none (some "change_me_in_env")
        (some [itemNoId]) 0).resp = .storageError ∧
    (syncDeclarations [baseRow 3] none (some "change_me_in_env")
        (some [itemNoId]) 0).store = [baseRow 3] :=
  ⟨(syncDeclarations_missingId_storageError [baseRow 3] none [itemNoId] 0
      ⟨itemNoId, by simp, rfl⟩).2.1,
   (syncDeclarations_missingId_storageError [baseRow 3] none [itemNoId] 0
      ⟨itemNoId, by simp, rfl⟩).2.2⟩

/-- Claim C8: each batch commits atomically: if any record is rejected by the
store the whole batch rolls back (no record observable, 500 storage error);
otherwise the batch commits and every record of the batch is present in the
resulting table. -/
theorem syncDeclarations_atomicBatch
    (store : List Decl) (envS : Option String) (items : List SyncItem) (now : Int)
    (hne : items ≠ []) :
    ((∃ it ∈ items, it.DECLARATIONID = none) →
      (syncDeclarations store envS (some (SYNC_SECRET envS))
          (some items) now).store = store ∧
      (syncDeclarations store envS (some (SYNC_SECRET envS))
          (some items) now).resp = .storageError) ∧
    ((∀ it ∈ items, it.DECLARATIONID ≠ none) →
      (syncDeclarations store envS (some (SYNC_SECRET envS))
          (some items) now).resp =
        .ok items.length (upsertBatch store (items.map (mkValues now))).2 ∧
      ∀ it ∈ items, ∀ x, it.DECLARATIONID = some x →
        presentKey (syncDeclarations store envS (some (SYNC_SECRET envS))
            (some items) now).store x = true) := by
  constructor
  · intro hsome
    have h := syncDeclarations_missingId_storageError store envS items now hsome
    exact ⟨h.2.2, h.2.1⟩
  · intro hall
    have hids : items.all (fun it => !it.DECLARATIONID.isNone) = true := by
      rw [List.all_eq_true]
      intro it hmem
      have := hall it hmem
      cases hd : it.DECLARATIONID with
      | none => exact absurd hd this
      | some v => rfl
    rw [syncDeclarations_run store envS items now hne hids]
    refine ⟨rfl, ?_⟩
    intro it hmem x hx
    have hmemrow : mkValues now it ∈ items.map (mkValues now) :=
      List.mem_map_of_mem _ hmem
    have hp := presentKey_upsertBatch_of_mem (items.map (mkValues now)) store
      (mkValues now it) hmemrow
    have hkey : (mkValues now it).declaration_id = x := by
      simp [mkValues, hx]
    rw [hkey] at hp
    exact hp

/-- Witness for C8: the ten-item batch whose fifth item is malformed is
rolled back wholesale, and a well-formed two-item batch lands both rows. -/
theorem syncDeclarations_atomicBatch_witness :
    (syncDeclarations [] none (some "change_me_in_env")
        (some itemsC8) 0).store = [] ∧
    (syncDeclarations [] none (some "change_me_in_env")
        (some itemsC8) 0).resp = .storageError ∧
    presentKey (syncDeclarations [] none (some "change_me_in_env")
        (some [itemK 1, itemK 2]) 0).store 2 = true :=
  ⟨((syncDeclarations_atomicBatch [] none itemsC8 0 (by decide)).1
      ⟨itemNoId, by decide, rfl⟩).1,
   ((syncDeclarations_atomicBatch [] none itemsC8 0 (by decide)).1
      ⟨itemNoId, by decide, rfl⟩).2,
   ((syncDeclarations_atomicBatch [] none [itemK 1, itemK 2] 0 (by decide)).2
      (by decide)).2 (itemK 2) (by decide) 2 rfl⟩

/-- Claim C9: with no `SYNC_SECRET` configured the endpoint authenticates
exactly the requests whose `x-sync-secret` header equals the hard-coded
fallback "change_me_in_env"; with a (non-empty) configured secret it rejects
with 401 exactly when the header differs from it. -/
theorem syncDeclarations_secretFallback
    (store : List Decl) (header : Option String) (body : Option (List SyncItem))
    (now : Int) (s : String) (hs : s ≠ "") :
    ((syncDeclarations store none header body now).resp = .unauthorized ↔
      header ≠ some "change_me_in_env") ∧
    ((syncDeclarations store (some s) header body now).resp = .unauthorized ↔
      header ≠ some s) := by
  have hsec : SYNC_SECRET (some s) = s := by
    simp [SYNC_SECRET, jsOrStr, hs]
  constructor
  · constructor
    · intro hresp
      intro he
      rw [he] at hresp
      exact syncDeclarations_auth_not_unauthorized store none body now hresp
    · intro hne
      rw [syncDeclarations_unauthorized store none header body now hne]
  · constructor
    · intro hresp
      intro he
      have hh : header = some (SYNC_SECRET (some s)) := by rw [he, hsec]
      rw [hh] at hresp
      exact syncDeclarations_auth_not_unauthorized store (some s) body now hresp
    · intro hne
      rw [syncDeclarations_unauthorized store (some s) header body now
        (by rw [hsec]; exact hne)]

/-- Witness for C9: the fallback header is accepted when nothing is
configured, and rejected when "topsecret" is configured. -/
theorem syncDeclarations_secretFallback_witness :
    (syncDeclarations [] none (some "change_me_in_env")
        (some [itemFull]) 0).resp ≠ .unauthorized ∧
    (syncDeclarations [] (some "topsecret") (some "change_me_in_env")
        (some [itemFull]) 0).resp = .unauthorized :=
  ⟨fun h => ((syncDeclarations_secretFallback [] (some "change_me_in_env")
      (some [itemFull]) 0 "topsecret" (by decide)).1.mp h) rfl,
   (syncDeclarations_secretFallback [] (some "change_me_in_env")
      (some [itemFull]) 0 "topsecret" (by decide)).2.mpr (by decide)⟩

/-- `(t + p - 1) / p` is the ceiling of `t / p`: characterising bounds. -/
theorem ceil_div_bounds (t p : Nat) (hp : p ≠ 0) :
    t ≤ ((t + p - 1) / p) * p ∧ ((t + p - 1) / p) * p < t + p := by
  have hpos : 0 < p := Nat.pos_of_ne_zero hp
  constructor
  · have h1 := Nat.div_add_mod (t + p - 1) p
    have hlt : (t + p - 1) % p < p := Nat.mod_lt _ hpos
    rw [Nat.mul_comm]
    generalize hPQ : p * ((t + p - 1) / p) = PQ at h1 ⊢
    generalize hR : (t + p - 1) % p = R at h1 hlt
    omega
  · calc ((t + p - 1) / p) * p ≤ t + p - 1 := Nat.div_mul_le_self _ _
      _ < t + p := by omega

/-- Claim C7: the reported `total` is the number of rows matching the
filters (not the page size); `totalPages` is the ceiling of
`total / pageSize` (characterised by its two bounds); pages are 1-indexed
and passed through; the returned page is ordered by acceptance date
descending; and the page length is the remainder-aware window size
`min pageSize (total - (page-1)*pageSize)` — so with 137 matching rows and
`pageSize = 50`, page 3 holds exactly 37 rows (see the witness). -/
theorem getDeclarations_pagination (store : List Decl) (q : DeclQuery)
    (hpage : q.page ≠ 0) (hps : q.pageSize ≠ 0) :
    (getDeclarations store q).page = q.page ∧
    (getDeclarations store q).pageSize = q.pageSize ∧
    (getDeclarations store q).total = (store.filter (matchesQ q)).length ∧
    (getDeclarations store q).total ≤
      (getDeclarations store q).totalPages * q.pageSize ∧
    (getDeclarations store q).totalPages * q.pageSize <
      (getDeclarations store q).total + q.pageSize ∧
    List.Pairwise descR (getDeclarations store q).data ∧
    (getDeclarations store q).data.length =
      min q.pageSize
        ((getDeclarations store q).total - (q.page - 1) * q.pageSize) := by
  simp only [getDeclarations, if_neg hpage, if_neg hps]
  refine ⟨trivial, trivial, trivial, ?_, ?_, ?_, ?_⟩
  · exact (ceil_div_bounds (store.filter (matchesQ q)).length q.pageSize hps).1
  · exact (ceil_div_bounds (store.filter (matchesQ q)).length q.pageSize hps).2
  · have hsorted : List.Sorted descR
        (List.insertionSort descR (store.filter (matchesQ q))) :=
      List.sorted_insertionSort descR (store.filter (matchesQ q))
    have hsub : List.Sublist
        (((List.insertionSort descR (store.filter (matchesQ q))).drop
            ((q.page - 1) * q.pageSize)).take q.pageSize)
          (List.insertionSort descR (store.filter (matchesQ q))) :=
      (List.take_sublist _ _).trans (List.drop_sublist _ _)
    exact hsorted.sublist hsub
  · rw [List.length_take, List.length_drop, List.length_insertionSort]

/-- Witness for C7: 137 matching rows with `pageSize = 50` give
`totalPages = 3`, and page 3 returns exactly 37 rows. -/
theorem getDeclarations_pagination_witness :
    (getDeclarations storeC7 qC7).totalPages = 3 ∧
    (getDeclarations storeC7 qC7).data.length = 37 := by
  have h := getDeclarations_pagination storeC7 qC7 (by decide) (by decide)
  have htotal : (getDeclarations storeC7 qC7).total = 137 := by
    rw [h.2.2.1]
    rfl
  constructor
  · have h4 := h.2.2.2.1
    have h5 := h.2.2.2.2.1
    rw [htotal, show qC7.pageSize = 50 from rfl] at h4 h5
    omega
  · have h7 := h.2.2.2.2.2.2
    rw [htotal, show qC7.pageSize = 50 from rfl, show qC7.page = 3 from rfl] at h7
    rw [h7]
    decide

end DKMDashboard
